import Mathlib

/-!
# Verification of the serial shutter control program (ssc.c)

A shallow embedding of the core of `ssc.c`: the exposure state machine
(`expose`), the per-frame sequencing loop of `main`, the signal cleanup
handler (`exit_cleanup`), the two sleep primitives, the RTS control-line
manipulation (`set_rts`) and the PHD dither command lookup (`phd_dither`).

Time is modelled by a millisecond clock; every observable action (line
transition, guider byte exchange, log line, console report of an unknown
MLU method) is recorded in a timestamped event trace.
-/

namespace Ssc

/-- The configuration globals of `ssc.c` after argument parsing, immutable
during the run: exposure count, exposure time (ms), inter-frame pause (ms),
PHD dither amount (0 = disabled), MLU method, MLU delay (ms), minimum
shutter pulse (ms), quiet flag, and whether a log target is configured. -/
structure Config where
  exp_count : Nat
  exp_time : Nat
  exp_pause : Nat
  phd_dither_size : Nat
  mlu_method : Nat
  mlu_delay : Nat
  shut_min_pulse : Nat
  quiet : Bool
  log_target : Bool
  deriving DecidableEq, Repr

/-- State of the RTS control line: cleared (shutter released) or asserted
(shutter fired). -/
inductive Line where
  | released
  | engaged
  deriving DecidableEq, Repr

/-- Observable events, each recorded with the millisecond clock value at
which it happens. `fire`/`release` are the control-line transitions of
`set_rts`; `ditherWrite b` is the one-byte guider command, `ditherRead` the
one-byte acknowledgement read; `ditherOob` marks the out-of-bounds read of
`phd_cmds` (undefined behaviour in the C source); `logLine s e` is one line
handed to the logging collaborator with start/end timestamps; `msgUnknownMLU`
is the console report of an unknown MLU method. -/
inductive Ev where
  | fire
  | release
  | ditherWrite (b : Nat)
  | ditherRead
  | ditherOob
  | logLine (s e : Nat)
  | msgUnknownMLU (m : Nat)
  deriving DecidableEq, Repr

/-- Machine state: clock (ms), control-line state, the `exposing` flag, the
`exp_start`/`exp_end` globals (as clock values), whether the serial handle
and the guider socket are open, and the event trace so far. The C globals
`exp_start`, `exp_end`, `exposing` are zero-initialised statics. -/
structure St where
  clock : Nat
  line : Line
  exposing : Bool
  exp_start : Nat
  exp_end : Nat
  serialOpen : Bool
  guiderOpen : Bool
  events : List (Nat × Ev)
  deriving DecidableEq, Repr

/-- Machine state at program start, right after the serial port has been
opened successfully: statics are zero, no line transition has happened yet. -/
def initSt : St :=
  { clock := 0, line := .released, exposing := false, exp_start := 0,
    exp_end := 0, serialOpen := true, guiderOpen := false, events := [] }

/-- Constant `ANIMATION_STEP` from ssc.c: the fixed progress tick of the verbose
wait, in milliseconds. -/
def ANIMATION_STEP : Nat := 500

/-- The nanosecond duration `sleep_quiet` requests from `nanosleep`:
`tv_sec = msec / 1000` seconds plus `tv_nsec = (msec - msec / 1000 * 1000) *
1000000` nanoseconds, exactly as computed in the source. -/
def sleep_quiet_req_ns (msec : Nat) : Nat :=
  (msec / 1000) * 1000000000 + (msec - msec / 1000 * 1000) * 1000000

/-- Total time (ms) actually slept by `sleep_quiet`: the EINTR-restart loop
resumes with the remainder until the requested duration has fully elapsed,
so the elapsed time is the requested duration. -/
def sleep_quiet_elapsed (msec : Nat) : Nat :=
  sleep_quiet_req_ns msec / 1000000

/-- Total time (ms) slept by the non-quiet branch of `sleep_verbose` from
loop counter `sofar`: while `sofar + ANIMATION_STEP <= msec` it prints a
progress tick and sleeps one full `ANIMATION_STEP`; afterwards it sleeps the
final partial tick `msec - sofar` in full. -/
def verbose_total (msec sofar : Nat) : Nat :=
  if sofar + ANIMATION_STEP ≤ msec then
    sleep_quiet_elapsed ANIMATION_STEP + verbose_total msec (sofar + ANIMATION_STEP)
  else
    sleep_quiet_elapsed (msec - sofar)
termination_by msec - sofar
decreasing_by simp only [ANIMATION_STEP] at *; omega

/-- Total time (ms) slept by `sleep_verbose msec`: with the quiet flag it
delegates to `sleep_quiet msec`; otherwise it runs the tick loop from 0. -/
def sleep_verbose_elapsed (quiet : Bool) (msec : Nat) : Nat :=
  if quiet then sleep_quiet_elapsed msec else verbose_total msec 0

/-- Table `phd_cmds` from ssc.c: the five one-byte PHD move commands. -/
def phd_cmds : List Nat := [3, 4, 5, 12, 13]

/-- The command byte `phd_dither` writes: the source indexes the table as
`phd_cmds[phd_dither_size]`; `none` is the out-of-bounds case of that
indexing. -/
def phd_dither_cmd (size : Nat) : Option Nat := phd_cmds.get? size

/-- Constant `TIOCM_RTS`: the RTS bit of the modem-control bitmask (bit 2). -/
def TIOCM_RTS : Nat := 4

/-- Function `set_rts` from ssc.c at the bitmask level: reads the modem-control bits
`cbits` via TIOCMGET, sets (`cbits |= TIOCM_RTS`) or clears
(`cbits &= ~TIOCM_RTS`, a 32-bit int complement) the RTS bit, and writes the
result back via TIOCMSET. -/
def set_rts (flag : Bool) (cbits : Nat) : Nat :=
  if flag then cbits ||| TIOCM_RTS else cbits &&& (2 ^ 32 - 1 - TIOCM_RTS)

/-- Function `shutter_fire` from ssc.c: asserts RTS. -/
def shutter_fire (cbits : Nat) : Nat := set_rts true cbits

/-- Function `shutter_release` from ssc.c: clears RTS. -/
def shutter_release (cbits : Nat) : Nat := set_rts false cbits

/-- The primitive operations the program performs, in source order. -/
inductive Op where
  | setRts (flag : Bool)
  | sleepQ (msec : Nat)
  | sleepV (msec : Nat)
  | getTimeStart
  | getTimeEnd
  | setExposing (b : Bool)
  | logExposure
  | printUnknown (m : Nat)
  | phdDither
  | phdConnect
  | phdDisconnect
  deriving DecidableEq, Repr

/-- One step of the machine. `setRts` records the transition; the sleeps
advance the clock by the time the corresponding source function actually
sleeps; `getTimeStart`/`getTimeEnd` are the two `gettimeofday` calls writing
`exp_start`/`exp_end`; `logExposure` is `log_exposure()`, which returns
without output when no log target is configured and otherwise appends one
line with the current `exp_start`/`exp_end`; `phdDither` writes
`phd_cmds[phd_dither_size]` and reads one acknowledgement byte;
`phdConnect` opens the guider socket unless dithering is disabled;
`phdDisconnect` closes it if open. -/
def step (cfg : Config) (s : St) : Op → St
  | .setRts flag =>
      { s with line := if flag then .engaged else .released,
               events := s.events ++ [(s.clock, if flag then .fire else .release)] }
  | .sleepQ msec => { s with clock := s.clock + sleep_quiet_elapsed msec }
  | .sleepV msec => { s with clock := s.clock + sleep_verbose_elapsed cfg.quiet msec }
  | .getTimeStart => { s with exp_start := s.clock }
  | .getTimeEnd => { s with exp_end := s.clock }
  | .setExposing b => { s with exposing := b }
  | .logExposure =>
      if cfg.log_target then
        { s with events := s.events ++ [(s.clock, .logLine s.exp_start s.exp_end)] }
      else s
  | .printUnknown m => { s with events := s.events ++ [(s.clock, .msgUnknownMLU m)] }
  | .phdDither =>
      match phd_dither_cmd cfg.phd_dither_size with
      | some b => { s with events := s.events ++ [(s.clock, .ditherWrite b), (s.clock, .ditherRead)] }
      | none => { s with events := s.events ++ [(s.clock, .ditherOob)] }
  | .phdConnect => if cfg.phd_dither_size ≠ 0 then { s with guiderOpen := true } else s
  | .phdDisconnect => { s with guiderOpen := false }

/-- Run a list of operations from a state. -/
def run (cfg : Config) (ops : List Op) (s : St) : St := ops.foldl (step cfg) s

/-- Function `expose` from ssc.c as its operation sequence. Method 1: fire, quiet
wait of `mlu_delay`, record start, raise `exposing`, verbose wait of
`exp_time`, drop `exposing`, record end, release. Method 2: fire, quiet wait
of `shut_min_pulse`, release, quiet wait of `mlu_delay`, fire, record start,
raise `exposing`, verbose wait of `exp_time`, drop `exposing`, record end,
release. Any other method only prints the unknown-method message. (The
`msec` parameter of the C function is ignored by its body, which uses the
global `exp_time`.) -/
def expose (cfg : Config) : List Op :=
  if cfg.mlu_method = 1 then
    [.setRts true, .sleepQ cfg.mlu_delay,
     .getTimeStart, .setExposing true, .sleepV cfg.exp_time,
     .setExposing false, .getTimeEnd, .setRts false]
  else if cfg.mlu_method = 2 then
    [.setRts true, .sleepQ cfg.shut_min_pulse, .setRts false,
     .sleepQ cfg.mlu_delay, .setRts true,
     .getTimeStart, .setExposing true, .sleepV cfg.exp_time,
     .setExposing false, .getTimeEnd, .setRts false]
  else
    [.printUnknown cfg.mlu_method]

/-- The operations of loop iteration `i` of `main` (frames are numbered
from 1): dither when `i != 1` and dithering is enabled, pause when `i != 1`,
then `expose`, then `log_exposure`. (The `snprintf` into the console label
buffer has no observable effect and is omitted.) -/
def frame_ops (cfg : Config) (i : Nat) : List Op :=
  (if i ≠ 1 ∧ cfg.phd_dither_size ≠ 0 then [.phdDither] else []) ++
  (if i ≠ 1 then [.sleepQ cfg.exp_pause] else []) ++
  expose cfg ++ [.logExposure]

/-- The operations of the first `n` iterations of the main loop. -/
def frames_ops (cfg : Config) : Nat → List Op
  | 0 => []
  | n + 1 => frames_ops cfg n ++ frame_ops cfg (n + 1)

/-- The operations of `main` after the serial port is open and the SIGINT
handler is registered: `shutter_release()`, `phd_connect()`, the frame loop
for `i = 1 .. exp_count`, then `phd_disconnect()` (and `return 0`). -/
def main_ops (cfg : Config) : List Op :=
  [.setRts false, .phdConnect] ++ frames_ops cfg cfg.exp_count ++ [.phdDisconnect]

/-- The operations of `main` up to the end of frame `n`, including the
startup release and guider connect. -/
def ops_through_frame (cfg : Config) (n : Nat) : List Op :=
  [.setRts false, .phdConnect] ++ frames_ops cfg n

/-- The machine state immediately before the call to `expose` of frame `i`
(after frame `i`'s dither and pause), starting `main` from state `s0`. -/
def st_before_expose (cfg : Config) (s0 : St) (i : Nat) : St :=
  run cfg (ops_through_frame cfg (i - 1) ++
    (if i ≠ 1 ∧ cfg.phd_dither_size ≠ 0 then [.phdDither] else []) ++
    (if i ≠ 1 then [.sleepQ cfg.exp_pause] else [])) s0

/-- The machine state immediately after the call to `expose` of frame `i`. -/
def st_after_expose (cfg : Config) (s0 : St) (i : Nat) : St :=
  run cfg (ops_through_frame cfg (i - 1) ++
    (if i ≠ 1 ∧ cfg.phd_dither_size ≠ 0 then [.phdDither] else []) ++
    (if i ≠ 1 then [.sleepQ cfg.exp_pause] else []) ++ expose cfg) s0

/-- Function `exit_cleanup` from ssc.c, the SIGINT handler, applied to the machine
state at the interruption instant: `shutter_release()`; if `exposing` is
set, clear it, record `exp_end` now and call `log_exposure()`; `close(fd)`
closes the serial handle; `exit(0)` terminates the process with success
status, at which point the operating system closes every descriptor still
open, including the guider socket. Returns the final state and the exit
status. -/
def exit_cleanup (cfg : Config) (s : St) : St × Nat :=
  let s1 := step cfg s (.setRts false)
  let s2 := if s1.exposing then
      run cfg [.setExposing false, .getTimeEnd, .logExposure] s1
    else s1
  ({ s2 with serialOpen := false, guiderOpen := false }, 0)

/-! ## Timing of the sleep primitives -/

/-- Function `sleep_quiet` sleeps exactly the requested number of milliseconds: the
second/nanosecond decomposition handed to `nanosleep` adds back up to
`msec` milliseconds. -/
@[simp]
theorem sleep_quiet_elapsed_eq (msec : Nat) : sleep_quiet_elapsed msec = msec := by
  simp only [sleep_quiet_elapsed, sleep_quiet_req_ns]
  omega

/-- The verbose tick loop started at counter `sofar ≤ msec` sleeps exactly
the remaining `msec - sofar` milliseconds. -/
theorem verbose_total_eq (msec sofar : Nat) (h : sofar ≤ msec) :
    verbose_total msec sofar = msec - sofar := by
  have key : ∀ k sofar, msec - sofar ≤ k → sofar ≤ msec →
      verbose_total msec sofar = msec - sofar := by
    intro k
    induction k with
    | zero =>
      intro sofar hk hle
      unfold verbose_total
      have hneg : ¬ (sofar + ANIMATION_STEP ≤ msec) := by
        simp only [ANIMATION_STEP]; omega
      rw [if_neg hneg]
      simp
    | succ k ih =>
      intro sofar hk hle
      unfold verbose_total
      by_cases hc : sofar + ANIMATION_STEP ≤ msec
      · rw [if_pos hc]
        rw [ih (sofar + ANIMATION_STEP) (by simp only [ANIMATION_STEP] at *; omega)
              (by simp only [ANIMATION_STEP] at *; omega)]
        simp only [ANIMATION_STEP] at *
        simp
        omega
      · rw [if_neg hc]
        simp
  exact key (msec - sofar) sofar le_rfl h

/-- Function `sleep_verbose` sleeps exactly the requested number of milliseconds,
whether or not the quiet flag suppresses the progress feedback. -/
@[simp]
theorem sleep_verbose_elapsed_eq (q : Bool) (msec : Nat) :
    sleep_verbose_elapsed q msec = msec := by
  cases q <;> simp [sleep_verbose_elapsed, verbose_total_eq]

/-! ## Basic machine lemmas -/

@[simp]
theorem step_sleepQ (cfg : Config) (s : St) (m : Nat) :
    step cfg s (.sleepQ m) = { s with clock := s.clock + m } := by
  simp [step]

@[simp]
theorem step_sleepV (cfg : Config) (s : St) (m : Nat) :
    step cfg s (.sleepV m) = { s with clock := s.clock + m } := by
  simp [step]

theorem run_append (cfg : Config) (a b : List Op) (s : St) :
    run cfg (a ++ b) s = run cfg b (run cfg a s) := by
  simp [run, List.foldl_append]

theorem run_nil (cfg : Config) (s : St) : run cfg [] s = s := rfl

theorem run_cons (cfg : Config) (op : Op) (ops : List Op) (s : St) :
    run cfg (op :: ops) s = run cfg ops (step cfg s op) := rfl

/-- No operation other than `setRts` changes the control-line state. -/
theorem step_line_of_ne_setRts (cfg : Config) (s : St) (op : Op)
    (h : ∀ flag, op ≠ .setRts flag) : (step cfg s op).line = s.line := by
  cases op with
  | setRts flag => exact absurd rfl (h flag)
  | logExposure => by_cases hl : cfg.log_target <;> simp [step, hl]
  | phdDither =>
    cases hc : phd_dither_cmd cfg.phd_dither_size <;> simp [step, hc]
  | phdConnect => by_cases hd : cfg.phd_dither_size ≠ 0 <;> simp [step, hd]
  | _ => simp [step]

/-- Running a list of operations that contains no `setRts` leaves the
control-line state unchanged. -/
theorem run_line_preserved (cfg : Config) (ops : List Op) (s : St)
    (h : ∀ op ∈ ops, ∀ flag, op ≠ Op.setRts flag) :
    (run cfg ops s).line = s.line := by
  induction ops generalizing s with
  | nil => rfl
  | cons op rest ih =>
    rw [run_cons, ih _ (fun o ho => h o (List.mem_cons_of_mem _ ho))]
    exact step_line_of_ne_setRts cfg s op (h op (List.mem_cons_self _ _))

/-- The dither/pause operations at the head of a frame contain no `setRts`. -/
theorem frame_pre_no_setRts (cfg : Config) (i : Nat) :
    ∀ op ∈ ((if i ≠ 1 ∧ cfg.phd_dither_size ≠ 0 then [Op.phdDither] else []) ++
            (if i ≠ 1 then [Op.sleepQ cfg.exp_pause] else [])),
      ∀ flag, op ≠ Op.setRts flag := by
  intro op hop flag
  rcases List.mem_append.1 hop with h | h <;> split at h <;> simp_all

/-- For a valid MLU method, `expose` always ends with the line released,
from any starting state. -/
theorem expose_line_released (cfg : Config) (s : St)
    (hm : cfg.mlu_method = 1 ∨ cfg.mlu_method = 2) :
    (run cfg (expose cfg) s).line = .released := by
  rcases hm with h | h <;> simp [expose, h, run, step]

/-- For an invalid MLU method, `expose` performs no line transition. -/
theorem expose_line_invalid (cfg : Config) (s : St)
    (h1 : cfg.mlu_method ≠ 1) (h2 : cfg.mlu_method ≠ 2) :
    (run cfg (expose cfg) s).line = s.line := by
  simp [expose, h1, h2, run, step]

/-- A complete frame of the main loop ends with the line released, for a
valid MLU method. -/
theorem frame_line_released (cfg : Config) (s : St) (i : Nat)
    (hm : cfg.mlu_method = 1 ∨ cfg.mlu_method = 2) :
    (run cfg (frame_ops cfg i) s).line = .released := by
  unfold frame_ops
  rw [run_append, run_append, run_append]
  rw [run_line_preserved cfg [Op.logExposure] _ (by simp)]
  exact expose_line_released cfg _ hm

/-- Invariant: after startup and any number of complete frames, the control
line is released (valid MLU method). This state is also the state in which
any fatal guider error (`phd_connect` at `n = 0`, `phd_dither` at the head
of frame `n + 1`) would terminate the process. -/
theorem ops_through_frame_line_released (cfg : Config) (s0 : St) (n : Nat)
    (hm : cfg.mlu_method = 1 ∨ cfg.mlu_method = 2) :
    (run cfg (ops_through_frame cfg n) s0).line = .released := by
  induction n with
  | zero =>
    simp [ops_through_frame, frames_ops, run, step]
    split <;> rfl
  | succ n ih =>
    have hsplit : ops_through_frame cfg (n + 1) =
        ops_through_frame cfg n ++ frame_ops cfg (n + 1) := by
      simp [ops_through_frame, frames_ops]
    rw [hsplit, run_append]
    exact frame_line_released cfg _ _ hm

/-- Full contract of the SIGINT handler `exit_cleanup`, from an arbitrary
interruption state: the line ends released, the exit status is 0, every
descriptor (serial handle and guider socket) is closed; if the interruption
happened while `exposing` was set (i.e. during the timed-exposure wait,
after the start timestamp was recorded), `exp_end` is set to the
interruption instant and — when a log target is configured — the record
(recorded start, interruption instant) is handed to the logging
collaborator; otherwise no log line is produced and `exp_end` is
untouched. -/
theorem exit_cleanup_spec (cfg : Config) (s : St) :
    (exit_cleanup cfg s).1.line = .released
    ∧ (exit_cleanup cfg s).2 = 0
    ∧ (exit_cleanup cfg s).1.serialOpen = false
    ∧ (exit_cleanup cfg s).1.guiderOpen = false
    ∧ (s.exposing = true →
        (exit_cleanup cfg s).1.exp_end = s.clock
        ∧ (exit_cleanup cfg s).1.events =
            s.events ++ [(s.clock, Ev.release)] ++
              (if cfg.log_target then [(s.clock, Ev.logLine s.exp_start s.clock)] else []))
    ∧ (s.exposing = false →
        (exit_cleanup cfg s).1.events = s.events ++ [(s.clock, Ev.release)]
        ∧ (exit_cleanup cfg s).1.exp_end = s.exp_end) := by
  by_cases he : s.exposing <;>
    by_cases hl : cfg.log_target <;>
      simp [exit_cleanup, run, step, he, hl]

/-! ## Concrete configurations used as witnesses -/

/-- The end-to-end configuration of the spec: 3 exposures of 2000 ms,
1000 ms pause, MLU method 2 with 500 ms delay and 100 ms minimum pulse,
dithering disabled. -/
def cfg_method2 : Config :=
  { exp_count := 3, exp_time := 2000, exp_pause := 1000, phd_dither_size := 0,
    mlu_method := 2, mlu_delay := 500, shut_min_pulse := 100, quiet := true,
    log_target := false }

/-- A method-1 configuration (source defaults except `-m 1`, verbose). -/
def cfg_method1 : Config :=
  { exp_count := 1, exp_time := 1000, exp_pause := 5000, phd_dither_size := 0,
    mlu_method := 1, mlu_delay := 2000, shut_min_pulse := 200, quiet := false,
    log_target := false }

/-! ## Claim theorems -/

/-- C1: for every valid configuration (MLU method in {1,2}), the control
line is released immediately before and immediately after every call to
`expose` (frame `i` of the main loop), is released at process start and
after every complete frame (the states at which a fatal guider error would
terminate the process), is released at normal completion of `main`, and is
released on the signal exit path `exit_cleanup` from any interruption
state. -/
theorem c1_line_released_invariant (cfg : Config) (s0 : St)
    (hm : cfg.mlu_method = 1 ∨ cfg.mlu_method = 2) :
    (∀ n, (run cfg (ops_through_frame cfg n) s0).line = .released)
    ∧ (∀ i, (st_before_expose cfg s0 i).line = .released)
    ∧ (∀ i, (st_after_expose cfg s0 i).line = .released)
    ∧ (run cfg (main_ops cfg) s0).line = .released
    ∧ (∀ s : St, (exit_cleanup cfg s).1.line = .released) := by
  refine ⟨fun n => ops_through_frame_line_released cfg s0 n hm,
    fun i => ?_, fun i => ?_, ?_, fun s => (exit_cleanup_spec cfg s).1⟩
  · unfold st_before_expose
    rw [run_append, run_append]
    rw [run_line_preserved cfg _ _ (by split <;> simp)]
    rw [run_line_preserved cfg _ _ (by split <;> simp)]
    exact ops_through_frame_line_released cfg s0 _ hm
  · unfold st_after_expose
    rw [run_append]
    exact expose_line_released cfg _ hm
  · have hsplit : main_ops cfg =
        ops_through_frame cfg cfg.exp_count ++ [Op.phdDisconnect] := by
      simp [main_ops, ops_through_frame]
    rw [hsplit, run_append, run_line_preserved cfg _ _ (by simp)]
    exact ops_through_frame_line_released cfg s0 _ hm

/-- Witness for C1 at the concrete method-2 configuration. -/
theorem c1_witness :
    (st_before_expose cfg_method2 initSt 1).line = .released
    ∧ (st_after_expose cfg_method2 initSt 1).line = .released
    ∧ (run cfg_method2 (main_ops cfg_method2) initSt).line = .released :=
  ⟨(c1_line_released_invariant cfg_method2 initSt (Or.inr rfl)).2.1 1,
   (c1_line_released_invariant cfg_method2 initSt (Or.inr rfl)).2.2.1 1,
   (c1_line_released_invariant cfg_method2 initSt (Or.inr rfl)).2.2.2.1⟩

/-- C2: under MLU method 2, `expose` engages the line for
`shut_min_pulse`, releases it, stays silent for `mlu_delay`, engages it for
`exp_time` and releases it — exactly these four transitions, at exactly
these clock values; `exp_start` is recorded at the second engagement and
`exp_end` just before the final release, so the recorded duration is
`exp_time` alone, excluding the pulse and the lockup delay. -/
theorem c2_method2_sequence (cfg : Config) (s : St) (hm : cfg.mlu_method = 2) :
    (run cfg (expose cfg) s).events =
      s.events ++
        [(s.clock, Ev.fire),
         (s.clock + cfg.shut_min_pulse, Ev.release),
         (s.clock + cfg.shut_min_pulse + cfg.mlu_delay, Ev.fire),
         (s.clock + cfg.shut_min_pulse + cfg.mlu_delay + cfg.exp_time, Ev.release)]
    ∧ (run cfg (expose cfg) s).exp_start = s.clock + cfg.shut_min_pulse + cfg.mlu_delay
    ∧ (run cfg (expose cfg) s).exp_end =
        s.clock + cfg.shut_min_pulse + cfg.mlu_delay + cfg.exp_time
    ∧ (run cfg (expose cfg) s).exp_end - (run cfg (expose cfg) s).exp_start =
        cfg.exp_time := by
  simp [expose, hm, run, step]

/-- Witness for C2: the spec's end-to-end configuration, from the start
state — pulse at 0..100, lockup silence 100..600, exposure 600..2600,
recorded window [600, 2600] of length 2000. -/
theorem c2_witness :
    (run cfg_method2 (expose cfg_method2) initSt).events =
      [(0, Ev.fire), (100, Ev.release), (600, Ev.fire), (2600, Ev.release)]
    ∧ (run cfg_method2 (expose cfg_method2) initSt).exp_start = 600
    ∧ (run cfg_method2 (expose cfg_method2) initSt).exp_end = 2600 := by
  have h := c2_method2_sequence cfg_method2 initSt rfl
  refine ⟨?_, ?_, ?_⟩
  · rw [h.1]; simp [initSt, cfg_method2]
  · rw [h.2.1]; simp [initSt, cfg_method2]
  · rw [h.2.2.1]; simp [initSt, cfg_method2]

/-- C3: under MLU method 1, `expose` fires once and releases once: the line
stays continuously engaged for `mlu_delay + exp_time` with no intermediate
transition, while the recorded window excludes the lockup delay —
`exp_start` is recorded after the `mlu_delay` wait and `exp_end` after the
`exp_time` wait, so the recorded duration is `exp_time` alone. -/
theorem c3_method1_sequence (cfg : Config) (s : St) (hm : cfg.mlu_method = 1) :
    (run cfg (expose cfg) s).events =
      s.events ++
        [(s.clock, Ev.fire),
         (s.clock + cfg.mlu_delay + cfg.exp_time, Ev.release)]
    ∧ (run cfg (expose cfg) s).exp_start = s.clock + cfg.mlu_delay
    ∧ (run cfg (expose cfg) s).exp_end = s.clock + cfg.mlu_delay + cfg.exp_time
    ∧ (s.clock + cfg.mlu_delay + cfg.exp_time) - s.clock =
        cfg.mlu_delay + cfg.exp_time
    ∧ (run cfg (expose cfg) s).exp_end - (run cfg (expose cfg) s).exp_start =
        cfg.exp_time := by
  refine ⟨?_, ?_, ?_, by omega, ?_⟩ <;> simp [expose, hm, run, step]

/-- Witness for C3: method-1 configuration from the start state — engaged
interval [0, 3000] of length 2000 + 1000, recorded window [2000, 3000] of
length 1000. -/
theorem c3_witness :
    (run cfg_method1 (expose cfg_method1) initSt).events =
      [(0, Ev.fire), (3000, Ev.release)]
    ∧ (run cfg_method1 (expose cfg_method1) initSt).exp_start = 2000
    ∧ (run cfg_method1 (expose cfg_method1) initSt).exp_end = 3000 := by
  have h := c3_method1_sequence cfg_method1 initSt rfl
  refine ⟨?_, ?_, ?_⟩
  · rw [h.1]; simp [initSt, cfg_method1]
  · rw [h.2.1]; simp [initSt, cfg_method1]
  · rw [h.2.2.1]; simp [initSt, cfg_method1]

/-- C9: the feedback-emitting timed wait `sleep_verbose` sleeps exactly
`msec` milliseconds for every duration and both settings of the quiet flag
(the tick loop sleeps full `ANIMATION_STEP` ticks and then the final
partial tick in full), so it is equal in timing to the silent
`sleep_quiet msec`, and the corresponding machine step only advances the
clock: it performs no control-line transition and records no event. -/
theorem c9_sleep_verbose_eq_sleep_quiet (msec : Nat) (q : Bool)
    (cfg : Config) (s : St) :
    sleep_verbose_elapsed q msec = msec
    ∧ sleep_verbose_elapsed q msec = sleep_quiet_elapsed msec
    ∧ step cfg s (.sleepV msec) = { s with clock := s.clock + msec }
    ∧ (step cfg s (.sleepV msec)).line = s.line
    ∧ (step cfg s (.sleepV msec)).events = s.events := by
  refine ⟨sleep_verbose_elapsed_eq q msec, by simp, by simp, by simp, by simp⟩

/-- A configuration with dither level 3. -/
def cfg_dither3 : Config :=
  { exp_count := 3, exp_time := 2000, exp_pause := 1000, phd_dither_size := 3,
    mlu_method := 2, mlu_delay := 500, shut_min_pulse := 100, quiet := true,
    log_target := false }

/-- A configuration with dither level 5 (accepted by the argument parser,
which only rejects levels above 5). -/
def cfg_dither5 : Config :=
  { exp_count := 3, exp_time := 2000, exp_pause := 1000, phd_dither_size := 5,
    mlu_method := 2, mlu_delay := 500, shut_min_pulse := 100, quiet := true,
    log_target := false }

/-- An invalid-method configuration: MLU method 3, one frame, log target
configured. -/
def cfg_badmethod : Config :=
  { exp_count := 1, exp_time := 1000, exp_pause := 5000, phd_dither_size := 0,
    mlu_method := 3, mlu_delay := 2000, shut_min_pulse := 200, quiet := true,
    log_target := true }

/-- C4 (against the code): `phd_dither` indexes the command table with the
dither level itself — `phd_cmds[phd_dither_size]` — not with `level - 1`,
so at level 3 it writes byte 12 (the fourth table entry), not byte 5 as the
spec's table {1:3, 2:4, 3:5, 4:12, 5:13} requires; it does perform exactly
one one-byte write followed by one one-byte acknowledgement read. -/
theorem c4_dither3_sends_12_not_5 :
    phd_dither_cmd 3 = some 12
    ∧ phd_dither_cmd 3 ≠ some 5
    ∧ (step cfg_dither3 initSt .phdDither).events =
        [(0, Ev.ditherWrite 12), (0, Ev.ditherRead)] := by
  refine ⟨rfl, by decide, by decide⟩

/-- C8 (against the code): at dither level 5 — a level the argument parser
accepts — the lookup `phd_cmds[phd_dither_size]` is an out-of-bounds access
of the five-entry table (indices 0..4): the embedded indexing takes its
`none` branch, so the claimed unreachability of that branch under
`level ≤ 5` is false. -/
theorem c8_dither5_out_of_bounds :
    phd_dither_cmd 5 = none
    ∧ phd_cmds.length = 5
    ∧ (step cfg_dither5 initSt .phdDither).events = [(0, Ev.ditherOob)] := by
  refine ⟨rfl, rfl, by decide⟩

/-- C5 counterexample: running `main` with MLU method 3, one frame and a
configured log target, the sequencer still calls `log_exposure()` after the
invalid-method frame (the call is unconditional in the loop body), so a
line — carrying the stale, zero-initialised timestamps — is handed to the
logging collaborator for that frame, refuting «nothing is handed to the
Logging collaborator for that frame». -/
theorem c5_counterexample :
    (run cfg_badmethod (main_ops cfg_badmethod) initSt).events =
      [(0, Ev.release), (0, Ev.msgUnknownMLU 3), (0, Ev.logLine 0 0)]
    ∧ Ev.logLine 0 0 ∈
        ((run cfg_badmethod (main_ops cfg_badmethod) initSt).events.map Prod.snd) := by
  refine ⟨by decide, by decide⟩

/-- C5 (amended): for every MLU method outside {1,2}, `expose` performs no
control-line transition, advances no clock, records no timestamp and only
reports the condition; the run continues (the loop body is unchanged), but
the per-frame `log_exposure()` call still happens, so when a log target is
configured the logging collaborator receives a line with the previous,
unchanged timestamps. -/
theorem c5_invalid_method_no_action (cfg : Config) (s : St)
    (h1 : cfg.mlu_method ≠ 1) (h2 : cfg.mlu_method ≠ 2) :
    (run cfg (expose cfg) s).events =
      s.events ++ [(s.clock, Ev.msgUnknownMLU cfg.mlu_method)]
    ∧ (run cfg (expose cfg) s).line = s.line
    ∧ (run cfg (expose cfg) s).clock = s.clock
    ∧ (run cfg (expose cfg) s).exp_start = s.exp_start
    ∧ (run cfg (expose cfg) s).exp_end = s.exp_end
    ∧ (run cfg (expose cfg ++ [Op.logExposure]) s).events =
        s.events ++ [(s.clock, Ev.msgUnknownMLU cfg.mlu_method)] ++
          (if cfg.log_target then [(s.clock, Ev.logLine s.exp_start s.exp_end)]
           else []) := by
  by_cases hl : cfg.log_target <;> simp [expose, h1, h2, hl, run, step]

/-- Witness for the amended C5 at the concrete invalid configuration. -/
theorem c5_witness :
    (run cfg_badmethod (expose cfg_badmethod) initSt).events =
      [(0, Ev.msgUnknownMLU 3)]
    ∧ (run cfg_badmethod (expose cfg_badmethod) initSt).line = Line.released := by
  have h := c5_invalid_method_no_action cfg_badmethod initSt
    (by decide) (by decide)
  refine ⟨?_, ?_⟩
  · rw [h.1]; simp [initSt, cfg_badmethod]
  · rw [h.2.1]; rfl

/-- C6: the SIGINT handler `exit_cleanup`, run from an arbitrary
interruption state, releases the line immediately, exits with status 0 and
closes every descriptor (the serial handle explicitly, the guider socket on
process exit); if `exposing` was set — which holds exactly during the
timed-exposure wait, after the start timestamp was recorded — the end
timestamp is set to the interruption instant and the record (recorded
start, interruption instant) is handed to the logging collaborator (when a
log target is configured); if `exposing` was clear (interruption during the
lockup phases), no record is produced. -/
theorem c6_termination_contract (cfg : Config) (s : St) :
    (exit_cleanup cfg s).1.line = .released
    ∧ (exit_cleanup cfg s).2 = 0
    ∧ (exit_cleanup cfg s).1.serialOpen = false
    ∧ (exit_cleanup cfg s).1.guiderOpen = false
    ∧ (s.exposing = true →
        (exit_cleanup cfg s).1.exp_end = s.clock
        ∧ (exit_cleanup cfg s).1.events =
            s.events ++ [(s.clock, Ev.release)] ++
              (if cfg.log_target then [(s.clock, Ev.logLine s.exp_start s.clock)]
               else []))
    ∧ (s.exposing = false →
        (exit_cleanup cfg s).1.events = s.events ++ [(s.clock, Ev.release)]
        ∧ (exit_cleanup cfg s).1.exp_end = s.exp_end) :=
  exit_cleanup_spec cfg s

/-- A state interrupted mid-exposure: the timed wait began at 600 ms and
the signal arrives at 1700 ms, with the line engaged and the guider open. -/
def st_interrupted : St :=
  { clock := 1700, line := .engaged, exposing := true, exp_start := 600,
    exp_end := 0, serialOpen := true, guiderOpen := true, events := [] }

/-- A log-target configuration for the interruption witness. -/
def cfg_logging : Config :=
  { exp_count := 3, exp_time := 2000, exp_pause := 1000, phd_dither_size := 2,
    mlu_method := 2, mlu_delay := 500, shut_min_pulse := 100, quiet := true,
    log_target := true }

/-- Witness for C6 at a concrete mid-exposure interruption state. -/
theorem c6_witness :
    (exit_cleanup cfg_logging st_interrupted).1.line = .released
    ∧ (exit_cleanup cfg_logging st_interrupted).2 = 0
    ∧ (exit_cleanup cfg_logging st_interrupted).1.guiderOpen = false
    ∧ (exit_cleanup cfg_logging st_interrupted).1.exp_end = 1700
    ∧ (exit_cleanup cfg_logging st_interrupted).1.events =
        [(1700, Ev.release), (1700, Ev.logLine 600 1700)] := by
  have h := c6_termination_contract cfg_logging st_interrupted
  have h5 := h.2.2.2.2.1 rfl
  refine ⟨h.1, h.2.1, h.2.2.2.1, h5.1, ?_⟩
  rw [h5.2]
  simp [st_interrupted, cfg_logging]

/-! ## Dither counting (C7) -/

/-- Number of `phd_dither` invocations in a list of operations. -/
def countDither : List Op → Nat
  | [] => 0
  | .phdDither :: rest => countDither rest + 1
  | op :: rest =>
    match op with
    | _ => countDither rest

theorem countDither_append (a b : List Op) :
    countDither (a ++ b) = countDither a + countDither b := by
  induction a with
  | nil => simp [countDither]
  | cons op rest ih => cases op <;> (simp [countDither, ih]; try omega)

/-- Function `expose` never invokes the guider. -/
theorem countDither_expose (cfg : Config) : countDither (expose cfg) = 0 := by
  unfold expose
  split
  · simp [countDither]
  · split <;> simp [countDither]

/-- With dithering enabled, frame 1 performs no dither and every later
frame performs exactly one. -/
theorem countDither_frame (cfg : Config) (hd : cfg.phd_dither_size ≠ 0)
    (i : Nat) :
    countDither (frame_ops cfg i) = if i = 1 then 0 else 1 := by
  unfold frame_ops
  by_cases h1 : i = 1 <;>
    simp [h1, hd, countDither_append, countDither, countDither_expose]

/-- With dithering enabled, the first `n` frames perform `n - 1` dithers. -/
theorem countDither_frames (cfg : Config) (hd : cfg.phd_dither_size ≠ 0) :
    ∀ n, countDither (frames_ops cfg n) = n - 1 := by
  intro n
  induction n with
  | zero => rfl
  | succ n ih =>
    rw [frames_ops, countDither_append, ih, countDither_frame cfg hd]
    by_cases hn : n = 0
    · simp [hn]
    · simp [hn]; omega

/-- C7: with dithering enabled and `exp_count` frames, the main loop
invokes the guider dither exactly `exp_count - 1` times; frame 1 neither
dithers nor pauses (its operations are exactly `expose` followed by the
log call), and every frame `i ≥ 2` performs, in order, the dither, then the
inter-frame pause, then the exposure (then the log call); `expose` itself
never dithers. -/
theorem c7_dither_count_and_order (cfg : Config)
    (hd : cfg.phd_dither_size ≠ 0) :
    countDither (main_ops cfg) = cfg.exp_count - 1
    ∧ frame_ops cfg 1 = expose cfg ++ [Op.logExposure]
    ∧ (∀ i, 2 ≤ i → frame_ops cfg i =
        [Op.phdDither, Op.sleepQ cfg.exp_pause] ++ expose cfg ++
          [Op.logExposure])
    ∧ countDither (expose cfg) = 0 := by
  refine ⟨?_, ?_, ?_, countDither_expose cfg⟩
  · simp [main_ops, countDither_append, countDither,
      countDither_frames cfg hd]
  · simp [frame_ops]
  · intro i hi
    have h1 : i ≠ 1 := by omega
    simp [frame_ops, h1, hd]

/-- Witness for C7 at a 3-frame configuration with dither level 2:
2 dithers in the whole run, frame 2 in dither–pause–expose order. -/
theorem c7_witness :
    countDither (main_ops cfg_logging) = 2
    ∧ frame_ops cfg_logging 1 = expose cfg_logging ++ [Op.logExposure]
    ∧ frame_ops cfg_logging 2 =
        [Op.phdDither, Op.sleepQ 1000] ++ expose cfg_logging ++
          [Op.logExposure] := by
  have h := c7_dither_count_and_order cfg_logging (by decide)
  refine ⟨?_, h.2.1, ?_⟩
  · rw [h.1]; rfl
  · rw [h.2.2.1 2 (by norm_num)]; rfl

/-! ## RTS bit manipulation (C10) -/

/-- Every bit of the 32-bit clear mask `~TIOCM_RTS` except bit 2 (within
the 32-bit word) is set. -/
theorem rts_clear_mask_testBit (i : Nat) :
    (2 ^ 32 - 1 - TIOCM_RTS : Nat).testBit i =
      (decide (i < 32) && !(decide (i = 2))) := by
  have h4 : (2 ^ 32 - 1 - TIOCM_RTS : Nat) = 4294967291 := by
    norm_num [TIOCM_RTS]
  rw [h4]
  by_cases h32 : i < 32
  · interval_cases i <;> decide
  · have hlt : (4294967291 : Nat) < 2 ^ i := by
      calc (4294967291 : Nat) < 2 ^ 32 := by norm_num
        _ ≤ 2 ^ i := Nat.pow_le_pow_right (by norm_num) (by omega)
    simp [Nat.testBit_eq_false_of_lt hlt, h32]

/-- C10: for every 32-bit modem-control bitmask, `set_rts` (and hence
`shutter_fire` and `shutter_release`) changes only the RTS bit (bit 2,
`TIOCM_RTS = 4`): every other bit of the read-back mask is written back
unchanged, and repeated calls are idempotent, so other control lines such
as DTR are never altered by the shutter operations. -/
theorem c10_set_rts_only_rts_bit (cbits : Nat) (hc : cbits < 2 ^ 32)
    (flag : Bool) :
    (∀ i, i ≠ 2 → (set_rts flag cbits).testBit i = cbits.testBit i)
    ∧ set_rts flag (set_rts flag cbits) = set_rts flag cbits
    ∧ shutter_fire cbits = set_rts true cbits
    ∧ shutter_release cbits = set_rts false cbits := by
  have h4 : (TIOCM_RTS : Nat) = 2 ^ 2 := rfl
  cases flag with
  | true =>
    refine ⟨fun i hi => ?_, ?_, rfl, rfl⟩
    · simp only [set_rts, if_pos, h4, Nat.testBit_lor]
      rw [Nat.testBit_two_pow_of_ne (Ne.symm hi)]
      simp
    · refine Nat.eq_of_testBit_eq fun i => ?_
      simp only [set_rts, if_pos, Nat.testBit_lor]
      cases h1 : cbits.testBit i <;> cases h2 : (TIOCM_RTS : Nat).testBit i <;>
        simp [h1, h2]
  | false =>
    refine ⟨fun i hi => ?_, ?_, rfl, rfl⟩
    · simp only [set_rts, if_neg, Bool.false_eq_true, not_false_iff,
        Nat.testBit_land, rts_clear_mask_testBit]
      by_cases h32 : i < 32
      · simp [h32, hi]
      · have : cbits.testBit i = false := by
          refine Nat.testBit_eq_false_of_lt (lt_of_lt_of_le hc ?_)
          exact Nat.pow_le_pow_right (by norm_num) (by omega)
        simp [h32, this]
    · refine Nat.eq_of_testBit_eq fun i => ?_
      simp only [set_rts, if_neg, Bool.false_eq_true, not_false_iff,
        Nat.testBit_land]
      cases h1 : cbits.testBit i <;>
        cases h2 : (2 ^ 32 - 1 - TIOCM_RTS : Nat).testBit i <;> simp [h1, h2]

/-- Witness for C10: with only DTR (bit 1, mask 2) set, firing the shutter
leaves DTR set and is idempotent. -/
theorem c10_witness :
    (2 : Nat) < 2 ^ 32
    ∧ (set_rts true 2).testBit 1 = (2 : Nat).testBit 1
    ∧ set_rts true (set_rts true 2) = set_rts true 2 :=
  ⟨by norm_num,
   (c10_set_rts_only_rts_bit 2 (by norm_num) true).1 1 (by decide),
   (c10_set_rts_only_rts_bit 2 (by norm_num) true).2.1⟩

end Ssc
